import Mathlib

/-!
Shallow embedding of the RAG chat route handler in
`src/app/api/chat/route.ts`: the retry helper `withRetry`, the history
normalizer, the query-rewrite fallback chain, the context-block builder,
the system-instruction template, the error classifier, and the `POST`
pipeline itself. External network services (generative model, embedding
service, vector index) are modelled as oracles: for the two generative
calls the oracle result is indexed by the invocation number, so that
retry behaviour is observable.
-/

set_option autoImplicit false

namespace AyurChat

/-- A JavaScript error value as the route handler observes it: an optional
numeric `status`, an optional `message` string, and the constructor name
used for the `errorType` diagnostic field. -/
structure JsError where
  status : Option Nat
  message : Option String
  ctorName : String
  deriving DecidableEq, Repr

/-- JavaScript truthiness of an optional string: `undefined` and the empty
string are falsy. -/
def truthyS : Option String → Bool
  | none => false
  | some s => s != ""

/-- `a || b` on strings, with the empty string falsy. -/
def jsOrS (a b : String) : String :=
  if a == "" then b else a

/-- `a || b` where `a` is an optional string (for example a response `text`
field that may be `undefined`). -/
def jsOrOptS (a : Option String) (b : String) : String :=
  match a with
  | some s => jsOrS s b
  | none => b

/-- Character-list prefix test, used to embed `String.prototype.includes`. -/
def charsStartWith : List Char → List Char → Bool
  | [], _ => true
  | _ :: _, [] => false
  | a :: as, b :: bs => a == b && charsStartWith as bs

/-- Character-list infix test. -/
def charsContainSeq (needle : List Char) : List Char → Bool
  | [] => charsStartWith needle []
  | b :: bs => charsStartWith needle (b :: bs) || charsContainSeq needle bs

/-- `s.includes(sub)` of JavaScript. -/
def strIncludes (s sub : String) : Bool :=
  charsContainSeq sub.toList s.toList

/-- `error.message?.includes(sub)`: the optional chaining makes a missing
message falsy. -/
def optIncludes (m : Option String) (sub : String) : Bool :=
  match m with
  | some s => strIncludes s sub
  | none => false

/-! ## Retry helper (`withRetry`, route.ts lines 26-45) -/

/-- Outcome of the retry helper: a value returned by the wrapped operation,
an error thrown by the wrapped operation, or the defensive post-loop
failure `Error("Max retries reached without success")`. -/
inductive RetryOutcome (α : Type) where
  | ok : α → RetryOutcome α
  | thrown : JsError → RetryOutcome α
  | exhausted : RetryOutcome α
  deriving DecidableEq, Repr

/-- The `for (let attempt = 1; attempt <= maxRetries; attempt++)` loop of
`withRetry`. The operation `fn` is modelled as a map from the invocation
number (the loop variable `attempt`) to that invocation's outcome. `fuel`
is the structural-termination device, set to the remaining number of loop
iterations (`maxRetries + 1 - attempt`), so `fuel = 0` coincides with the
loop guard failing and both produce the post-loop exhaustion outcome.
The second component of the result counts how many times `fn` was
invoked. -/
def withRetryLoop {α : Type} (fn : Nat → Except JsError α)
    (maxRetries delayMs attempt : Nat) : Nat → RetryOutcome α × Nat
  | 0 => (.exhausted, 0)
  | fuel + 1 =>
    if attempt ≤ maxRetries then
      match fn attempt with
      | .ok v => (.ok v, 1)
      | .error e =>
        if e.status = some 503 ∧ attempt < maxRetries then
          let r := withRetryLoop fn maxRetries (delayMs * 2) (attempt + 1) fuel
          (r.1, r.2 + 1)
        else (.thrown e, 1)
    else (.exhausted, 0)

/-- `withRetry(fn, maxRetries, delayMs)`: run the loop from `attempt = 1`.
In the source the defaults are `maxRetries = 3`, `delayMs = 1000`. -/
def withRetry {α : Type} (fn : Nat → Except JsError α)
    (maxRetries delayMs : Nat) : RetryOutcome α × Nat :=
  withRetryLoop fn maxRetries delayMs 1 maxRetries

/-! ## History normalizer (route.ts lines 64-76) -/

/-- One element of a raw `parts` array: an object whose `text` field may be
missing. -/
structure RawPart where
  text : Option String
  deriving DecidableEq, Repr

/-- One raw history entry as sent by the client: `role` may be missing and
`parts` may be missing or not an array (both modelled as `none`). An
element of `parts` may itself be `null` or `undefined` (an element that is
`none`), and a whole entry may be `null`, hence histories are lists of
`Option RawMsg`. -/
structure RawMsg where
  role : Option String
  parts : Option (List (Option RawPart))
  deriving DecidableEq, Repr

/-- A part of a normalized history entry: `{ text: ... }`. -/
structure TextPart where
  text : String
  deriving DecidableEq, Repr

/-- A normalized history entry, the `ChatHistory` interface of the source:
`{ role, parts: [{ text }] }`. -/
structure ChatHistory where
  role : String
  parts : List TextPart
  deriving DecidableEq, Repr

/-- The TypeError thrown by `msg.parts[0].text` when `msg.parts[0]` is
`null` (V8 wording); its message mentions neither "API key" nor "quota"
and it carries no numeric status, so the classifier sends it down the
generic branch. -/
def typeErrorNullText : JsError :=
  ⟨none, some "Cannot read properties of null (reading \x27text\x27)", "TypeError"⟩

/-- The filter predicate of `formattedHistory`:
`msg && msg.role && Array.isArray(msg.parts) && msg.parts.length > 0 && msg.parts[0].text`,
evaluated left to right with JavaScript short-circuiting. When the first
four conjuncts hold but `msg.parts[0]` is a `null` element, the final
conjunct `msg.parts[0].text` throws a TypeError instead of producing a
boolean, hence the `Except` result. -/
def keepMsg : Option RawMsg → Except JsError Bool
  | none => .ok false
  | some msg =>
    if truthyS msg.role then
      match msg.parts with
      | some ps =>
        if 0 < ps.length then
          match ps.headD none with
          | some p => .ok (truthyS p.text)
          | none => .error typeErrorNullText
        else .ok false
      | none => .ok false
    else .ok false

/-- `Array.prototype.filter` with a callback that can throw: elements are
visited left to right and the first thrown error aborts the whole filter. -/
def filterE {α : Type} (p : α → Except JsError Bool) : List α → Except JsError (List α)
  | [] => .ok []
  | a :: as =>
    match p a with
    | .error e => .error e
    | .ok b =>
      match filterE p as with
      | .error e => .error e
      | .ok rest => .ok (if b then a :: rest else rest)

/-- The map step of `formattedHistory`:
`{ role: msg.role, parts: [{ text: msg.parts[0].text }] }`. The defaults
(and the `none` arm for a null first part) are never exercised on entries
that pass `keepMsg`, whose truthiness test already dereferenced
`msg.parts[0].text`. -/
def formatMsg : Option RawMsg → ChatHistory
  | some msg =>
    ⟨msg.role.getD "",
      [⟨match (msg.parts.getD []).headD none with
        | some p => p.text.getD ""
        | none => ""⟩]⟩
  | none => ⟨"", [⟨""⟩]⟩

/-- `formattedHistory = (history || []).filter(...).map(...)`: either the
normalized history, or the TypeError thrown out of the filter when some
entry has a truthy role and a non-empty `parts` whose first element is
null. -/
def normalizeHistory (history : Option (List (Option RawMsg))) :
    Except JsError (List ChatHistory) :=
  match filterE keepMsg (history.getD []) with
  | .error e => .error e
  | .ok kept => .ok (kept.map formatMsg)

/-- The entries on which the filter predicate throws: a non-null entry
with a truthy role and a non-empty parts array whose first element is
null. -/
def filterThrows : Option RawMsg → Bool
  | none => false
  | some msg =>
    truthyS msg.role &&
      (match msg.parts with
       | some (none :: _) => true
       | _ => false)

/-- Modelled from the spec: an entry is kept only if it has a role and a
non-empty first text part (History Normalizer contract, spec section 4.1).
Written by pattern matching on the shape the spec describes, to be compared
with the filter predicate `keepMsg` taken from the code. -/
def keptSpec : Option RawMsg → Bool
  | none => false
  | some msg =>
    (match msg.role with
     | some r => r != ""
     | none => false) &&
    (match msg.parts with
     | some (some p :: _) =>
       (match p.text with
        | some t => t != ""
        | none => false)
     | _ => false)

/-! ## Post-rewrite history update (route.ts lines 113-122) -/

/-- The user turn pushed after the rewrite step. -/
def newUserTurn (q : String) : ChatHistory :=
  ⟨"user", [⟨q⟩]⟩

/-- The pop-then-push step: if the history is non-empty and its last entry
has role `"user"`, pop it; then push the enhanced question as a user turn. -/
def updateHistory (fh : List ChatHistory) (enhancedQuestion : String) : List ChatHistory :=
  (if 0 < fh.length && ((fh.getLast?.map (fun m => m.role)).getD "") == "user"
   then fh.dropLast
   else fh) ++ [newUserTurn enhancedQuestion]

/-- The fallback chain of the rewritten question:
`rewriteResponse.text || followUpQuestion || "No question generated."`. -/
def enhancedQuestionOf (rewriteText : Option String) (followUpQuestion : String) : String :=
  jsOrS (jsOrOptS rewriteText followUpQuestion) "No question generated."

/-! ## Context retrieval and assembly (route.ts lines 129-149) -/

/-- An embedding vector; its contents are opaque to the pipeline. -/
def Vec : Type := List Int

/-- The stored metadata of one vector-index match; the `text` field may be
missing. -/
structure VMatchMetadata where
  text : Option String
  deriving DecidableEq, Repr

/-- One vector-index match; the whole `metadata` object may be missing. -/
structure VMatch where
  metadata : Option VMatchMetadata
  deriving DecidableEq, Repr

/-- The result object of `pineconeIndex.query`; the `matches` field may be
missing. -/
structure SearchResults where
  «matches» : Option (List VMatch)
  deriving DecidableEq, Repr

/-- `s.trim()` of JavaScript: remove leading and trailing whitespace. -/
def jsTrim (s : String) : String :=
  String.mk (((s.data.dropWhile Char.isWhitespace).reverse.dropWhile Char.isWhitespace).reverse)

/-- `String(m.metadata?.text ?? "")`: a missing metadata object or a missing
text field yields the empty string. -/
def matchText (m : VMatch) : String :=
  match m.metadata with
  | some md => md.text.getD ""
  | none => ""

/-- The context block:
`matches.map(m => String(m.metadata?.text ?? "")).filter(t => t.trim().length > 0).join("\n\n---\n\n")`. -/
def buildContext (ms : List VMatch) : String :=
  String.intercalate "\n\n---\n\n"
    ((ms.map matchText).filter (fun t => decide (0 < (jsTrim t).length)))

/-- The fixed part of the AyurBot system instruction, up to and including
`"Context: "` (route.ts lines 143-149). -/
def systemInstructionIntro : String :=
  "You are AyurBot — a compassionate Ayurveda and yoga expert.\nYou specialize in holistic healing, diet, lifestyle, herbs, meditation, and wellness.\nUse ONLY the provided context to answer. \nIf context lacks the answer, reply: \"I could not find the answer in the provided document. Would you like general Ayurvedic guidance instead?\"\nKeep your tone warm, natural, and caring. \nExplain simply and safely without prescribing medicines.\nContext: "

/-- The full system instruction:
`` `...Context: ${context || "No relevant context found."}` ``. -/
def systemInstruction (context : String) : String :=
  systemInstructionIntro ++ jsOrS context "No relevant context found."

/-- The fixed fallback answer used when the generative service returns no
text (route.ts lines 159-161). -/
def fallbackAnswer : String :=
  "I\x27m here to guide you on Ayurveda, yoga, and holistic well-being."

/-! ## Error classifier (route.ts lines 166-199) -/

/-- The JSON body plus HTTP status the handler returns: on success `answer`
is set; on failure `error`, `details` and possibly `errorType` are set. -/
structure ApiResponse where
  status : Nat
  answer : Option String
  error : Option String
  details : Option String
  errorType : Option String
  deriving DecidableEq, Repr

/-- `error.message || "Unknown error"` of the generic branch. -/
def errMessageOrUnknown (e : JsError) : String :=
  match e.message with
  | some m => jsOrS m "Unknown error"
  | none => "Unknown error"

/-- The catch block of `POST`: classify a failure and build the error
response (route.ts lines 166-199). -/
def classifyError (e : JsError) : ApiResponse :=
  if optIncludes e.message "API key" || e.status == some 403 then
    ⟨500, none, some "Configuration issue with AI service", some "API key problem", none⟩
  else if optIncludes e.message "quota" || e.status == some 429 then
    ⟨503, none, some "Service temporarily unavailable due to quota limits", some "Try again later", none⟩
  else
    ⟨500, none, some "Chat service temporarily unavailable", some (errMessageOrUnknown e), some e.ctorName⟩

/-- Modelled from the spec: the three failure categories of the Error
Classifier table (spec section 4.6). -/
inductive ErrorCategory where
  | configuration
  | capacity
  | generic
  deriving DecidableEq, Repr

/-- Modelled from the spec: the category a failure falls into, first match
wins (spec section 4.6). -/
def categoryOf (e : JsError) : ErrorCategory :=
  if optIncludes e.message "API key" || e.status == some 403 then .configuration
  else if optIncludes e.message "quota" || e.status == some 429 then .capacity
  else .generic

/-- The HTTP status each category produces in the code. -/
def categoryStatus : ErrorCategory → Nat
  | .configuration => 500
  | .capacity => 503
  | .generic => 500

/-- The fixed `error` string each category produces in the code. -/
def categoryError : ErrorCategory → String
  | .configuration => "Configuration issue with AI service"
  | .capacity => "Service temporarily unavailable due to quota limits"
  | .generic => "Chat service temporarily unavailable"

/-! ## The POST pipeline (route.ts lines 47-200) -/

/-- `userHistory`: the texts of the user turns of the normalized history
(route.ts lines 79-81). -/
def userHistoryOf (fh : List ChatHistory) : List String :=
  (fh.filter (fun m => m.role == "user")).map (fun m => (m.parts.headD ⟨""⟩).text)

/-- The prompt of the query-rewrite call (route.ts lines 92-99). -/
def rewritePromptOf (userHistory : List String) (followUpQuestion : String) : String :=
  "Previous user messages:\n" ++ String.intercalate "\n" userHistory ++
    "\nFollow-up question: " ++ followUpQuestion

/-- The parsed request body `{ question, history }`; `history` may be
missing or null. -/
structure ChatRequest where
  question : String
  history : Option (List (Option RawMsg))

/-- The three backing network services, modelled as oracles. The two
generative calls take the request payload and the invocation number and
return either a thrown error or the optional `text` of the response, so
that retry behaviour (how often a call site invokes the service) is
observable. -/
structure Oracles where
  rewrite : String → Nat → Except JsError (Option String)
  embedQuery : String → Except JsError Vec
  query : Vec → Except JsError SearchResults
  generate : List ChatHistory → String → Nat → Except JsError (Option String)

/-- What one run of the handler did: the response, how many times each
generative call site invoked the service, and the system instruction the
answer-generation call received (when it was made). -/
structure Trace where
  resp : ApiResponse
  rewriteCalls : Nat
  generateCalls : Nat
  genInstruction : Option String
  deriving DecidableEq, Repr

/-- The `POST` handler (route.ts lines 47-200). Each `ai.models.generateContent`
call site in the source invokes the service directly, exactly once, with no
retry wrapper around it; the trace records those invocation counts. A thrown
error from any stage — history normalization included — falls to the catch
block, `classifyError`. -/
def POST (o : Oracles) (req : ChatRequest) : Trace :=
  match normalizeHistory req.history with
  | .error e => ⟨classifyError e, 0, 0, none⟩
  | .ok formattedHistory =>
    let userHistory := userHistoryOf formattedHistory
    let followUpQuestion := req.question
    match o.rewrite (rewritePromptOf userHistory followUpQuestion) 1 with
    | .error e => ⟨classifyError e, 1, 0, none⟩
    | .ok rewriteText =>
      let enhancedQuestion := enhancedQuestionOf rewriteText followUpQuestion
      let finalHistory := updateHistory formattedHistory enhancedQuestion
      match o.embedQuery enhancedQuestion with
      | .error e => ⟨classifyError e, 1, 0, none⟩
      | .ok queryVector =>
        match o.query queryVector with
        | .error e => ⟨classifyError e, 1, 0, none⟩
        | .ok searchResults =>
          let context := buildContext (searchResults.«matches».getD [])
          let sys := systemInstruction context
          match o.generate finalHistory sys 1 with
          | .error e => ⟨classifyError e, 1, 1, some sys⟩
          | .ok text =>
            ⟨⟨200, some (jsOrOptS text fallbackAnswer), none, none, none⟩, 1, 1, some sys⟩


/-! ## Test fixtures -/

/-- Test fixture: a pipeline whose query-rewrite call fails with status 503
on its first invocation and succeeds from the second invocation on; all
other services succeed. -/
def oracle503Once : Oracles where
  rewrite := fun _ n =>
    if n == 1 then .error ⟨some 503, some "The model is overloaded", "ApiError"⟩
    else .ok (some "standalone question")
  embedQuery := fun _ => .ok []
  query := fun _ => .ok ⟨some []⟩
  generate := fun _ _ _ => .ok (some "answer")

/-- Test fixture: a pipeline whose rewrite call always throws a
non-transient error. -/
def oracleRewriteFails : Oracles where
  rewrite := fun _ _ => .error ⟨some 500, some "boom", "Error"⟩
  embedQuery := fun _ => .ok []
  query := fun _ => .ok ⟨some []⟩
  generate := fun _ _ _ => .ok (some "answer")

/-- Test fixture: a pipeline whose answer-generation call always throws a
quota error; earlier stages succeed, the index returning no matches. -/
def oracleGenerateFails : Oracles where
  rewrite := fun _ _ => .ok (some "standalone question")
  embedQuery := fun _ => .ok []
  query := fun _ => .ok ⟨some []⟩
  generate := fun _ _ _ => .error ⟨some 429, some "quota exceeded", "ApiError"⟩

/-- Test fixture: all services succeed, the index returns no matches and
the answer-generation call returns no text. -/
def oracleEmptyResults : Oracles where
  rewrite := fun _ _ => .ok (some "standalone question")
  embedQuery := fun _ => .ok []
  query := fun _ => .ok ⟨some []⟩
  generate := fun _ _ _ => .ok none

/-- Test fixture: an operation that fails with status 503 on its first two
invocations and succeeds on the third. -/
def fn503Twice : Nat → Except JsError Nat := fun n =>
  if n ≤ 2 then .error ⟨some 503, some "The model is overloaded", "ApiError"⟩ else .ok 42

/-- Test fixture: an operation that always fails with a non-transient error. -/
def fnAlwaysFails : Nat → Except JsError Nat := fun _ =>
  .error ⟨some 500, some "boom", "Error"⟩

/-! ## Helper lemmas -/

theorem withRetryLoop_reaches {α : Type} (fn : Nat → Except JsError α) (maxRetries : Nat) :
    ∀ fuel attempt delayMs, attempt + fuel = maxRetries + 1 → 1 ≤ fuel →
    (∃ n v, attempt ≤ n ∧ n ≤ maxRetries ∧ fn n = .ok v ∧
        (withRetryLoop fn maxRetries delayMs attempt fuel).1 = .ok v) ∨
    (∃ n e, attempt ≤ n ∧ n ≤ maxRetries ∧ fn n = .error e ∧
        (withRetryLoop fn maxRetries delayMs attempt fuel).1 = .thrown e) := by
  intro fuel
  induction fuel with
  | zero => intro attempt delayMs hsum h1; omega
  | succ k ih =>
    intro attempt delayMs hsum _
    have hle : attempt ≤ maxRetries := by omega
    cases hfn : fn attempt with
    | ok v =>
      left
      exact ⟨attempt, v, Nat.le_refl _, hle, hfn, by simp [withRetryLoop, hle, hfn]⟩
    | error e =>
      by_cases hc : e.status = some 503 ∧ attempt < maxRetries
      · have hres : (withRetryLoop fn maxRetries delayMs attempt (k + 1)).1 =
            (withRetryLoop fn maxRetries (delayMs * 2) (attempt + 1) k).1 := by
          simp [withRetryLoop, hle, hfn, hc]
        have hk : 1 ≤ k := by omega
        rcases ih (attempt + 1) (delayMs * 2) (by omega) hk with
          ⟨n, v, hn1, hn2, hfnn, hv⟩ | ⟨n, e2, hn1, hn2, hfnn, hv⟩
        · exact Or.inl ⟨n, v, by omega, hn2, hfnn, by rw [hres]; exact hv⟩
        · exact Or.inr ⟨n, e2, by omega, hn2, hfnn, by rw [hres]; exact hv⟩
      · right
        exact ⟨attempt, e, Nat.le_refl _, hle, hfn, by simp [withRetryLoop, hle, hfn, hc]⟩

theorem filterE_eq_filter {α : Type} (p : α → Except JsError Bool) (q : α → Bool)
    (l : List α) (h : ∀ a ∈ l, p a = .ok (q a)) :
    filterE p l = .ok (l.filter q) := by
  induction l with
  | nil => rfl
  | cons a as ih =>
    have ha := h a (List.mem_cons_self a as)
    have has := ih (fun x hx => h x (List.mem_cons_of_mem a hx))
    simp only [filterE, ha, has]
    cases hq : q a <;> simp [List.filter_cons, hq]

theorem buildContext_eq_empty {ms : List VMatch}
    (h : ∀ m ∈ ms, jsTrim (matchText m) = "") : buildContext ms = "" := by
  unfold buildContext
  have hnil : (ms.map matchText).filter (fun t => decide (0 < (jsTrim t).length)) = [] := by
    rw [List.filter_eq_nil_iff]
    intro t htl
    rcases List.mem_map.mp htl with ⟨m, hm, rfl⟩
    simp [h m hm]
  rw [hnil]
  rfl

/-- Claim C3: with maxRetries = 3, an operation failing with status 503 on
its first two invocations and succeeding on the third makes withRetry
return the success value after exactly 3 invocations; an operation whose
first invocation fails with a non-503 error is invoked exactly once and
its error is propagated unchanged. -/
theorem c3_retry_wrapper {α : Type} (fn g : Nat → Except JsError α)
    (e1 e2 e : JsError) (v : α)
    (h1 : fn 1 = .error e1) (hs1 : e1.status = some 503)
    (h2 : fn 2 = .error e2) (hs2 : e2.status = some 503)
    (h3 : fn 3 = .ok v)
    (hg : g 1 = .error e) (hge : ¬ e.status = some 503) :
    withRetry fn 3 1000 = (.ok v, 3) ∧ withRetry g 3 1000 = (.thrown e, 1) := by
  constructor
  · show withRetryLoop fn 3 1000 1 3 = (.ok v, 3)
    simp [withRetryLoop, h1, h2, h3, hs1, hs2]
  · show withRetryLoop g 3 1000 1 3 = (.thrown e, 1)
    simp [withRetryLoop, hg, hge]

/-- Witness for C3 at concrete operations. -/
theorem c3_retry_wrapper_witness :
    withRetry fn503Twice 3 1000 = (.ok 42, 3) ∧
    withRetry fnAlwaysFails 3 1000 =
      (.thrown ⟨some 500, some "boom", "Error"⟩, 1) :=
  c3_retry_wrapper fn503Twice fnAlwaysFails
    ⟨some 503, some "The model is overloaded", "ApiError"⟩
    ⟨some 503, some "The model is overloaded", "ApiError"⟩
    ⟨some 500, some "boom", "Error"⟩ 42
    rfl rfl rfl rfl rfl rfl (by decide)

/-- Claim C9: for maxRetries at least 1, withRetry either returns a value
the operation produced or rethrows an error the operation threw, on some
attempt between 1 and maxRetries; the defensive post-loop exhaustion
outcome is unreachable. -/
theorem c9_exhaustion_unreachable {α : Type} (fn : Nat → Except JsError α)
    (maxRetries delayMs : Nat) (h : 1 ≤ maxRetries) :
    ((∃ n v, 1 ≤ n ∧ n ≤ maxRetries ∧ fn n = .ok v ∧
        (withRetry fn maxRetries delayMs).1 = .ok v) ∨
     (∃ n e, 1 ≤ n ∧ n ≤ maxRetries ∧ fn n = .error e ∧
        (withRetry fn maxRetries delayMs).1 = .thrown e)) ∧
    (withRetry fn maxRetries delayMs).1 ≠ .exhausted := by
  have main := withRetryLoop_reaches fn maxRetries maxRetries 1 delayMs (by omega) h
  refine ⟨main, ?_⟩
  rcases main with ⟨n, v, _, _, _, hv⟩ | ⟨n, e, _, _, _, hv⟩ <;>
    · show (withRetryLoop fn maxRetries delayMs 1 maxRetries).1 ≠ .exhausted
      rw [hv]
      intro hcon
      exact RetryOutcome.noConfusion hcon

/-- Witness for C9 at a concrete operation and budget. -/
theorem c9_exhaustion_unreachable_witness :
    (1 : Nat) ≤ 3 ∧
    (((∃ n v, 1 ≤ n ∧ n ≤ 3 ∧ (fun _ => (.ok 7 : Except JsError Nat)) n = .ok v ∧
        (withRetry (fun _ => (.ok 7 : Except JsError Nat)) 3 1000).1 = .ok v) ∨
      (∃ n e, 1 ≤ n ∧ n ≤ 3 ∧ (fun _ => (.ok 7 : Except JsError Nat)) n = .error e ∧
        (withRetry (fun _ => (.ok 7 : Except JsError Nat)) 3 1000).1 = .thrown e)) ∧
     (withRetry (fun _ => (.ok 7 : Except JsError Nat)) 3 1000).1 ≠ .exhausted) :=
  ⟨by decide, c9_exhaustion_unreachable (fun _ => .ok 7) 3 1000 (by decide)⟩

/-- Claim C1 counterexample: with a rewrite service that fails with status
503 on its first invocation and would succeed on any later one, the handler
invokes the service exactly once and propagates the failure as a generic
500 error response, while withRetry with the default budget of 3 would have
returned the successful rewrite: the generative calls are not executed
through the Retry Wrapper. -/
theorem c1_counterexample :
    (POST oracle503Once ⟨"q", some []⟩).rewriteCalls = 1 ∧
    (POST oracle503Once ⟨"q", some []⟩).resp.status = 500 ∧
    (POST oracle503Once ⟨"q", some []⟩).resp.error =
      some "Chat service temporarily unavailable" ∧
    (withRetry (fun n => oracle503Once.rewrite "p" n) 3 1000).1 =
      .ok (some "standalone question") := by decide

/-- Claim C1, amended: neither generative-service call is executed through
the Retry Wrapper; each call site invokes the service directly at most
once per request, and an error thrown by either call — status 503 included —
propagates immediately to the error classifier. -/
theorem c1_no_retry_wrapper (o o2 : Oracles) (req req2 : ChatRequest)
    (e e2 : JsError) (rt : Option String) (vec : Vec) (sr : SearchResults)
    (fh fh2 : List ChatHistory)
    (hn : normalizeHistory req.history = .ok fh)
    (hn2 : normalizeHistory req2.history = .ok fh2)
    (h : o.rewrite (rewritePromptOf (userHistoryOf fh) req.question) 1 = .error e)
    (h1 : o2.rewrite (rewritePromptOf (userHistoryOf fh2) req2.question) 1 = .ok rt)
    (h2 : o2.embedQuery (enhancedQuestionOf rt req2.question) = .ok vec)
    (h3 : o2.query vec = .ok sr)
    (h4 : o2.generate
        (updateHistory fh2 (enhancedQuestionOf rt req2.question))
        (systemInstruction (buildContext (sr.«matches».getD []))) 1 = .error e2) :
    POST o req = ⟨classifyError e, 1, 0, none⟩ ∧
    POST o2 req2 =
      ⟨classifyError e2, 1, 1,
        some (systemInstruction (buildContext (sr.«matches».getD [])))⟩ ∧
    (∀ (o3 : Oracles) (r3 : ChatRequest),
      (POST o3 r3).rewriteCalls ≤ 1 ∧ (POST o3 r3).generateCalls ≤ 1) := by
  refine ⟨?_, ?_, ?_⟩
  · simp [POST, hn, h]
  · simp [POST, hn2, h1, h2, h3, h4]
  · intro o3 r3
    simp only [POST]
    (repeat' split) <;> simp

/-- Witness for the amended C1 at concrete oracles and requests. -/
theorem c1_no_retry_wrapper_witness :
    POST oracleRewriteFails ⟨"q", some []⟩ =
      ⟨classifyError ⟨some 500, some "boom", "Error"⟩, 1, 0, none⟩ ∧
    POST oracleGenerateFails ⟨"q", some []⟩ =
      ⟨classifyError ⟨some 429, some "quota exceeded", "ApiError"⟩, 1, 1,
        some (systemInstruction (buildContext ((⟨some []⟩ : SearchResults).«matches».getD [])))⟩ ∧
    (∀ (o3 : Oracles) (r3 : ChatRequest),
      (POST o3 r3).rewriteCalls ≤ 1 ∧ (POST o3 r3).generateCalls ≤ 1) :=
  c1_no_retry_wrapper oracleRewriteFails oracleGenerateFails
    ⟨"q", some []⟩ ⟨"q", some []⟩
    ⟨some 500, some "boom", "Error"⟩ ⟨some 429, some "quota exceeded", "ApiError"⟩
    (some "standalone question") [] ⟨some []⟩ [] []
    rfl rfl rfl rfl rfl rfl rfl

/-- Claim C2 counterexample: the configuration category and the generic
category map to the same status code 500, so the categories do not map to
pairwise distinct status codes. -/
theorem c2_counterexample :
    categoryOf ⟨some 403, none, "Error"⟩ = .configuration ∧
    categoryOf ⟨some 418, none, "Error"⟩ = .generic ∧
    (classifyError ⟨some 403, none, "Error"⟩).status =
      (classifyError ⟨some 418, none, "Error"⟩).status := by decide

/-- Claim C2, amended: the classifier is total — every failure falls into
exactly one of the three categories, the configuration rule (message
mentions "API key" or status 403) checked before the capacity rule
(message mentions "quota" or status 429), everything else generic — and
each category maps to a stable status code and a fixed error string;
capacity gets the distinct status 503, while configuration and generic
share status 500 and are distinguished by their error strings. -/
theorem c2_classifier_total (e : JsError) :
    (classifyError e).status = categoryStatus (categoryOf e) ∧
    (classifyError e).error = some (categoryError (categoryOf e)) ∧
    (categoryOf e = .configuration ↔
      (optIncludes e.message "API key" || e.status == some 403) = true) ∧
    (categoryOf e = .capacity ↔
      ((optIncludes e.message "API key" || e.status == some 403) = false ∧
       (optIncludes e.message "quota" || e.status == some 429) = true)) ∧
    (categoryOf e = .generic ↔
      ((optIncludes e.message "API key" || e.status == some 403) = false ∧
       (optIncludes e.message "quota" || e.status == some 429) = false)) ∧
    categoryStatus .capacity ≠ categoryStatus .configuration ∧
    categoryStatus .capacity ≠ categoryStatus .generic ∧
    categoryStatus .configuration = categoryStatus .generic ∧
    categoryError .configuration ≠ categoryError .capacity ∧
    categoryError .configuration ≠ categoryError .generic ∧
    categoryError .capacity ≠ categoryError .generic := by
  cases hc : (optIncludes e.message "API key" || e.status == some 403) <;>
    cases hq : (optIncludes e.message "quota" || e.status == some 429) <;>
      simp [classifyError, categoryOf, categoryStatus, categoryError, hc, hq]

/-- Claim C4: if the last normalized entry has role "user" the post-rewrite
history pops it and pushes the enhanced question, keeping the length; if the
history is empty or ends in a non-user turn the enhanced question is
appended, growing the length by one; in both cases the result ends with a
user turn carrying exactly the enhanced question, and in the replacement
case the raw final turn is gone from the result. -/
theorem c4_history_replacement (fh gh : List ChatHistory) (q : String)
    (m : ChatHistory) (hlast : fh.getLast? = some m) (hrole : m.role = "user")
    (hg : ∀ x, gh.getLast? = some x → x.role ≠ "user") :
    (updateHistory fh q).length = fh.length ∧
    updateHistory fh q = fh.dropLast ++ [newUserTurn q] ∧
    (updateHistory gh q).length = gh.length + 1 ∧
    updateHistory gh q = gh ++ [newUserTurn q] ∧
    (updateHistory fh q).getLast? = some (newUserTurn q) ∧
    (updateHistory gh q).getLast? = some (newUserTurn q) := by
  have hne : fh ≠ [] := by
    intro hcon
    rw [hcon] at hlast
    exact Option.noConfusion hlast
  have hlen : 0 < fh.length := List.length_pos.mpr hne
  have hcondf : (0 < fh.length && ((fh.getLast?.map (fun x => x.role)).getD "") == "user") = true := by
    rw [hlast]
    simp [hrole, hlen]
  have hf : updateHistory fh q = fh.dropLast ++ [newUserTurn q] := by
    unfold updateHistory
    rw [hcondf]
    simp
  have hcondg : (0 < gh.length && ((gh.getLast?.map (fun x => x.role)).getD "") == "user") = false := by
    cases hgl : gh.getLast? with
    | none =>
      have : gh = [] := List.getLast?_eq_none_iff.mp hgl
      simp [this]
    | some x =>
      have hx := hg x hgl
      simp [hx]
  have hgeq : updateHistory gh q = gh ++ [newUserTurn q] := by
    unfold updateHistory
    rw [hcondg]
    simp
  refine ⟨?_, hf, ?_, hgeq, ?_, ?_⟩
  · rw [hf]
    simp
    omega
  · rw [hgeq]
    simp
  · rw [hf, List.getLast?_concat]
  · rw [hgeq, List.getLast?_concat]

/-- Witness for C4 at a concrete one-turn history and the empty history. -/
theorem c4_history_replacement_witness :
    (updateHistory [newUserTurn "hi"] "Q").length = 1 ∧
    updateHistory [newUserTurn "hi"] "Q" = [newUserTurn "hi"].dropLast ++ [newUserTurn "Q"] ∧
    (updateHistory ([] : List ChatHistory) "Q").length = 0 + 1 ∧
    updateHistory ([] : List ChatHistory) "Q" = [] ++ [newUserTurn "Q"] ∧
    (updateHistory [newUserTurn "hi"] "Q").getLast? = some (newUserTurn "Q") ∧
    (updateHistory ([] : List ChatHistory) "Q").getLast? = some (newUserTurn "Q") :=
  c4_history_replacement [newUserTurn "hi"] [] "Q" (newUserTurn "hi") rfl rfl
    (fun _ hx => Option.noConfusion hx)

/-- Claim C5 counterexample: a history entry with a truthy role and a
non-empty parts array whose first element is null is not silently dropped:
the filter predicate throws a TypeError, the normalizer rethrows it, and a
request carrying that entry fails with a generic 500 (errorType
"TypeError") before any service is invoked. -/
theorem c5_counterexample :
    keepMsg (some ⟨some "user", some [none]⟩) = .error typeErrorNullText ∧
    normalizeHistory (some [some ⟨some "user", some [none]⟩]) =
      .error typeErrorNullText ∧
    (POST oracleEmptyResults ⟨"q", some [some ⟨some "user", some [none]⟩]⟩).resp.status = 500 ∧
    (POST oracleEmptyResults ⟨"q", some [some ⟨some "user", some [none]⟩]⟩).resp.errorType =
      some "TypeError" ∧
    (POST oracleEmptyResults ⟨"q", some [some ⟨some "user", some [none]⟩]⟩).rewriteCalls = 0 :=
  ⟨rfl, rfl, rfl, rfl, rfl⟩

/-- Claim C5, amended: on every entry whose first parts element is not a
null under a truthy role (the predicate filterThrows), the filter agrees
with the spec predicate keptSpec (non-empty role and non-null, non-empty
first text part), and on a throw-free history the Normalizer drops exactly
the non-kept entries without error, preserving relative order and
retaining only the first text fragment of each kept entry; but on an entry
satisfying filterThrows the filter throws a TypeError instead of dropping
it, failing the whole request. -/
theorem c5_normalizer (hist : List (Option RawMsg)) (role t : String)
    (ps : List (Option RawPart)) (hr : role ≠ "") (ht : t ≠ "")
    (hnt : ∀ m ∈ hist, filterThrows m = false) :
    (∀ m, filterThrows m = false → keepMsg m = .ok (keptSpec m)) ∧
    (∀ m, filterThrows m = true → keepMsg m = .error typeErrorNullText) ∧
    normalizeHistory (some hist) = .ok ((hist.filter keptSpec).map formatMsg) ∧
    List.Sublist (hist.filter keptSpec) hist ∧
    keepMsg (some ⟨some role, some (some ⟨some t⟩ :: ps)⟩) = .ok true ∧
    formatMsg (some ⟨some role, some (some ⟨some t⟩ :: ps)⟩) = ⟨role, [⟨t⟩]⟩ := by
  have hpt : ∀ m, filterThrows m = false → keepMsg m = .ok (keptSpec m) := by
    intro m
    match m with
    | none => intro _; rfl
    | some ⟨none, _⟩ => intro _; rfl
    | some ⟨some r, none⟩ => intro _; simp [keepMsg, keptSpec, truthyS]
    | some ⟨some r, some []⟩ => intro _; simp [keepMsg, keptSpec, truthyS]
    | some ⟨some r, some (none :: rest)⟩ =>
      intro hthr
      simp [filterThrows, truthyS] at hthr
      simp [keepMsg, keptSpec, truthyS, hthr]
    | some ⟨some r, some (some ⟨none⟩ :: rest)⟩ => intro _; simp [keepMsg, keptSpec, truthyS]
    | some ⟨some r, some (some ⟨some t0⟩ :: rest)⟩ =>
      intro _
      by_cases hr0 : r = "" <;> simp [keepMsg, keptSpec, truthyS, hr0]
  have hth : ∀ m, filterThrows m = true → keepMsg m = .error typeErrorNullText := by
    intro m
    match m with
    | none => intro hcon; simp [filterThrows] at hcon
    | some ⟨mr, none⟩ => intro hthr; simp [filterThrows] at hthr
    | some ⟨mr, some []⟩ => intro hthr; simp [filterThrows] at hthr
    | some ⟨mr, some (some p :: rest)⟩ => intro hthr; simp [filterThrows] at hthr
    | some ⟨mr, some (none :: rest)⟩ =>
      intro hthr
      simp only [filterThrows, Bool.and_eq_true] at hthr
      simp [keepMsg, hthr.1]
  refine ⟨hpt, hth, ?_, List.filter_sublist hist, ?_, ?_⟩
  · unfold normalizeHistory
    rw [Option.getD_some,
      filterE_eq_filter keepMsg keptSpec hist (fun m hm => hpt m (hnt m hm))]
  · simp [keepMsg, truthyS, hr, ht]
  · rfl

/-- Witness for the amended C5 at a concrete throw-free history and entry. -/
theorem c5_normalizer_witness :
    (∀ m, filterThrows m = false → keepMsg m = .ok (keptSpec m)) ∧
    (∀ m, filterThrows m = true → keepMsg m = .error typeErrorNullText) ∧
    normalizeHistory (some [none, some ⟨some "user", some [some ⟨some "hello"⟩]⟩]) =
      .ok ((([none, some ⟨some "user", some [some ⟨some "hello"⟩]⟩] :
          List (Option RawMsg)).filter keptSpec).map formatMsg) ∧
    List.Sublist
      (([none, some ⟨some "user", some [some ⟨some "hello"⟩]⟩] :
          List (Option RawMsg)).filter keptSpec)
      [none, some ⟨some "user", some [some ⟨some "hello"⟩]⟩] ∧
    keepMsg (some ⟨some "user", some (some ⟨some "hello"⟩ :: [some ⟨some "extra"⟩])⟩) = .ok true ∧
    formatMsg (some ⟨some "user", some (some ⟨some "hello"⟩ :: [some ⟨some "extra"⟩])⟩) =
      ⟨"user", [⟨"hello"⟩]⟩ :=
  c5_normalizer [none, some ⟨some "user", some [some ⟨some "hello"⟩]⟩] "user" "hello"
    [some ⟨some "extra"⟩] (by decide) (by decide) (by decide)

/-- Claim C6: the context block of the Context Retriever, evaluated on
ranked matches with metadata texts ["", "  ", "A", "B"], equals
"A\n\n---\n\nB"; a missing metadata object or a missing text field reads as
the empty string; whitespace-only texts are discarded; and the kept texts
are joined in ranked order with the separator. -/
theorem c6_context_block :
    buildContext [⟨some ⟨some ""⟩⟩, ⟨some ⟨some "  "⟩⟩, ⟨some ⟨some "A"⟩⟩, ⟨some ⟨some "B"⟩⟩]
      = "A\n\n---\n\nB" ∧
    matchText ⟨none⟩ = "" ∧
    matchText ⟨some ⟨none⟩⟩ = "" ∧
    buildContext [] = "" ∧
    buildContext [⟨some ⟨some " \t"⟩⟩, ⟨none⟩, ⟨some ⟨none⟩⟩] = "" ∧
    buildContext [⟨some ⟨some "A"⟩⟩, ⟨some ⟨some "B"⟩⟩, ⟨some ⟨some "C"⟩⟩]
      = "A\n\n---\n\nB\n\n---\n\nC" := by decide

/-- Claim C7: the rewritten question is the generative service text when
that is non-empty, else the original follow-up question when that is
non-empty, else the literal placeholder. -/
theorem c7_rewrite_fallback (t fu fu2 : String) (ht : t ≠ "") (hfu : fu ≠ "") :
    enhancedQuestionOf (some t) fu2 = t ∧
    enhancedQuestionOf none fu = fu ∧
    enhancedQuestionOf (some "") fu = fu ∧
    enhancedQuestionOf none "" = "No question generated." ∧
    enhancedQuestionOf (some "") "" = "No question generated." := by
  refine ⟨?_, ?_, ?_, rfl, rfl⟩ <;>
    simp [enhancedQuestionOf, jsOrOptS, jsOrS, ht, hfu]

/-- Witness for C7 at concrete strings. -/
theorem c7_rewrite_fallback_witness :
    enhancedQuestionOf (some "What is Ayurveda?") "follow" = "What is Ayurveda?" ∧
    enhancedQuestionOf none "follow up" = "follow up" ∧
    enhancedQuestionOf (some "") "follow up" = "follow up" ∧
    enhancedQuestionOf none "" = "No question generated." ∧
    enhancedQuestionOf (some "") "" = "No question generated." :=
  c7_rewrite_fallback "What is Ayurveda?" "follow up" "follow" (by decide) (by decide)

/-- Claim C8: when every retrieved match has an empty or whitespace-only
text (zero matches included) but all services succeed, the generator is
still invoked, with the placeholder "No relevant context found." standing
in the context position of its system instruction; the handler returns
status 200 with a non-empty answer, and the answer is the fixed fallback
sentence whenever the generative service returns no usable text. -/
theorem c8_empty_context (o : Oracles) (req : ChatRequest)
    (rt gt : Option String) (vec : Vec) (sr : SearchResults)
    (fh : List ChatHistory)
    (hn : normalizeHistory req.history = .ok fh)
    (hrw : ∀ p n, o.rewrite p n = .ok rt)
    (hemb : ∀ s, o.embedQuery s = .ok vec)
    (hq : ∀ v, o.query v = .ok sr)
    (hms : ∀ m ∈ sr.«matches».getD [], jsTrim (matchText m) = "")
    (hgen : ∀ c s n, o.generate c s n = .ok gt) :
    (POST o req).resp.status = 200 ∧
    (POST o req).generateCalls = 1 ∧
    (POST o req).genInstruction =
      some (systemInstructionIntro ++ "No relevant context found.") ∧
    (POST o req).resp.answer = some (jsOrOptS gt fallbackAnswer) ∧
    (POST o req).resp.answer ≠ some "" ∧
    ((gt = none ∨ gt = some "") → (POST o req).resp.answer = some fallbackAnswer) := by
  have hctx : buildContext (sr.«matches».getD []) = "" := buildContext_eq_empty hms
  have hsys : systemInstruction (buildContext (sr.«matches».getD [])) =
      systemInstructionIntro ++ "No relevant context found." := by
    rw [hctx]
    rfl
  have hanswer : ∀ x : Option String, jsOrOptS x fallbackAnswer ≠ "" := by
    intro x
    match x with
    | none => decide
    | some s =>
      by_cases hs : s = ""
      · simp [jsOrOptS, jsOrS, hs]
        decide
      · simp [jsOrOptS, jsOrS, hs]
  refine ⟨?_, ?_, ?_, ?_, ?_, ?_⟩ <;>
    simp [POST, hn, hrw, hemb, hq, hgen, hsys, hanswer]
  · intro hgt
    rcases hgt with hgt | hgt <;> simp [hgt, jsOrOptS, jsOrS]

/-- Witness for C8: all services succeed, the index returns no matches and
the generator returns no text. -/
theorem c8_empty_context_witness :
    (POST oracleEmptyResults ⟨"q", some []⟩).resp.status = 200 ∧
    (POST oracleEmptyResults ⟨"q", some []⟩).generateCalls = 1 ∧
    (POST oracleEmptyResults ⟨"q", some []⟩).genInstruction =
      some (systemInstructionIntro ++ "No relevant context found.") ∧
    (POST oracleEmptyResults ⟨"q", some []⟩).resp.answer =
      some (jsOrOptS none fallbackAnswer) ∧
    (POST oracleEmptyResults ⟨"q", some []⟩).resp.answer ≠ some "" ∧
    ((none = (none : Option String) ∨ (none : Option String) = some "") →
      (POST oracleEmptyResults ⟨"q", some []⟩).resp.answer = some fallbackAnswer) :=
  c8_empty_context oracleEmptyResults ⟨"q", some []⟩ (some "standalone question")
    none [] ⟨some []⟩ [] rfl (fun _ _ => rfl) (fun _ => rfl) (fun _ => rfl)
    (fun m hm => absurd hm (by simp)) (fun _ _ _ => rfl)

/-- Claim C10: a missing or null history field is handled exactly like the
empty history: the run of the handler is identical, and the normalizer
yields the empty normalized history. -/
theorem c10_missing_history (o : Oracles) (q : String) :
    POST o ⟨q, none⟩ = POST o ⟨q, some []⟩ ∧
    normalizeHistory none = .ok ([] : List ChatHistory) :=
  ⟨rfl, rfl⟩

end AyurChat



